/-
  Verification of the cc4me-network relay and SDK against its
  natural-language specification.

  Shallow embedding of:
  - packages/relay/src/routes/contacts.ts  (contact state machine)
  - the admin/broadcast logic              (createBroadcast, verifyBroadcastSignature)
  - packages/sdk/src/client.ts / relay-api (signed request framing, send guard)

  The SQLite tables are modelled as lists of rows; `.get` on a keyed
  SELECT is `List.find?`, `DELETE ... WHERE` is `List.filter` with the
  negated predicate, `UPDATE ... WHERE` is `List.map` guarded by the
  predicate, and `INSERT` is an append.  `datetime('now')` timestamps
  are threaded as explicit `now` arguments.  Cryptographic primitives
  from node:crypto (SHA-256, Ed25519 sign/verify, SPKI key parsing) are
  abstract parameters; everything built on top of them is concrete.
-/
import Mathlib

namespace CC4Me

/-! ## Data model (relay database rows) -/

/-- A row of the `agents` table (the columns the contact routes read). -/
structure AgentRow where
  name : String
  public_key : String
  endpoint : Option String
  status : String
  deriving DecidableEq, Repr

/-- A row of the `contacts` table. -/
structure ContactRow where
  agent_a : String
  agent_b : String
  status : String
  requested_by : String
  greeting : Option String
  created_at : String
  updated_at : String
  deriving DecidableEq, Repr

/-- A row of the `admins` table. -/
structure AdminRow where
  agent : String
  admin_public_key : String
  deriving DecidableEq, Repr

/-- A row of the `broadcasts` table. -/
structure BroadcastRow where
  id : String
  type : String
  payload : String
  sender : String
  signature : String
  deriving DecidableEq, Repr

/-- The relay database state (the tables the verified routes touch). -/
structure Db where
  agents : List AgentRow
  contacts : List ContactRow
  admins : List AdminRow
  broadcasts : List BroadcastRow
  deriving DecidableEq, Repr

/-- `ContactResult` from contacts.ts: `{ ok, status?, error? }`. -/
structure ContactResult where
  ok : Bool
  status : Option Nat
  error : Option String
  deriving DecidableEq, Repr

/-! ## contacts.ts -/

/-- `MAX_GREETING_LENGTH` from contacts.ts. -/
def MAX_GREETING_LENGTH : Nat := 500

/-- JavaScript's `a < b` on strings: lexicographic comparison of the
    character sequences (what `String.lt` unfolds to). -/
def strLtB (a b : String) : Bool :=
  decide (a.data < b.data)

/-- JavaScript's `a <= b` on strings (used for the sort order below). -/
def strLeB (a b : String) : Bool :=
  !(strLtB b a)

/-- `orderPair` from contacts.ts: order two agent names alphabetically
    for the composite primary key. -/
def orderPair (a b : String) : String × String :=
  if strLtB a b then (a, b) else (b, a)

/-- Does a contacts row match the composite key `(a, b)`? -/
def keyMatch (a b : String) (r : ContactRow) : Bool :=
  r.agent_a == a && r.agent_b == b

/-- `SELECT ... FROM contacts WHERE agent_a = ? AND agent_b = ?` via `.get`:
    the first matching row, if any. -/
def findPair (db : Db) (a b : String) : Option ContactRow :=
  db.contacts.find? (keyMatch a b)

/-- `isActiveAgent` from contacts.ts:
    `SELECT status FROM agents WHERE name = ? AND status = 'active'`. -/
def isActiveAgent (db : Db) (name : String) : Bool :=
  (db.agents.find? (fun a => a.name == name && a.status == "active")).isSome

/-- JS truthiness of the optional greeting (`greeting && ...`):
    `undefined` and the empty string are falsy. -/
def greetingTruthy : Option String → Bool
  | none => false
  | some g => g != ""

/-- `greeting || null` from the INSERT in `requestContact`. -/
def greetingOrNull : Option String → Option String
  | none => none
  | some g => if g == "" then none else some g

/-- `requestContact` from contacts.ts.  Returns the HTTP-level result and
    the database after the call (the source mutates `db` in place). -/
def requestContact (db : Db) (fromAgent toAgent : String)
    (greeting : Option String) (now : String) : ContactResult × Db :=
  -- Can't request yourself
  if fromAgent == toAgent then
    ({ ok := false, status := some 400, error := some "Cannot add yourself as a contact" }, db)
  -- Both agents must be active
  else if !isActiveAgent db fromAgent then
    ({ ok := false, status := some 403, error := some "Requesting agent is not active" }, db)
  else if !isActiveAgent db toAgent then
    ({ ok := false, status := some 404, error := some "Target agent not found or not active" }, db)
  -- Validate greeting length
  else if greetingTruthy greeting &&
      decide ((greeting.getD "").length > MAX_GREETING_LENGTH) then
    ({ ok := false, status := some 400, error := some "Greeting too long (max 500 chars)" }, db)
  else
    let p := orderPair fromAgent toAgent
    -- Check for existing contact (any status)
    match findPair db p.1 p.2 with
    | some existing =>
      if existing.status == "active" then
        ({ ok := false, status := some 409, error := some "Already contacts" }, db)
      else if existing.status == "pending" then
        ({ ok := false, status := some 409, error := some "Contact request already pending" }, db)
      else
        -- If denied or removed, allow re-request by replacing the row
        let db' : Db := { db with contacts := db.contacts.filter (fun r => !keyMatch p.1 p.2 r) }
        let row : ContactRow :=
          { agent_a := p.1, agent_b := p.2, status := "pending",
            requested_by := fromAgent, greeting := greetingOrNull greeting,
            created_at := now, updated_at := now }
        ({ ok := true, status := some 201, error := none },
         { db' with contacts := db'.contacts ++ [row] })
    | none =>
      let row : ContactRow :=
        { agent_a := p.1, agent_b := p.2, status := "pending",
          requested_by := fromAgent, greeting := greetingOrNull greeting,
          created_at := now, updated_at := now }
      ({ ok := true, status := some 201, error := none },
       { db with contacts := db.contacts ++ [row] })

/-- `acceptContact` from contacts.ts. -/
def acceptContact (db : Db) (agent otherAgent : String) (now : String) :
    ContactResult × Db :=
  let p := orderPair agent otherAgent
  match findPair db p.1 p.2 with
  | none =>
    ({ ok := false, status := some 404, error := some "No pending contact request found" }, db)
  | some existing =>
    if existing.status == "active" then
      ({ ok := true, status := none, error := none }, db)  -- Already active, idempotent
    else if existing.status != "pending" then
      ({ ok := false, status := some 404, error := some "No pending contact request found" }, db)
    -- Only the recipient (non-requester) can accept
    else if existing.requested_by == agent then
      ({ ok := false, status := some 400, error := some "Cannot accept your own request" }, db)
    else
      ({ ok := true, status := none, error := none },
       { db with contacts := db.contacts.map (fun r =>
           if keyMatch p.1 p.2 r then { r with status := "active", updated_at := now } else r) })

/-- `denyContact` from contacts.ts. -/
def denyContact (db : Db) (agent otherAgent : String) : ContactResult × Db :=
  let p := orderPair agent otherAgent
  match findPair db p.1 p.2 with
  | none =>
    ({ ok := false, status := some 404, error := some "No pending contact request found" }, db)
  | some existing =>
    if existing.status != "pending" then
      ({ ok := false, status := some 404, error := some "No pending contact request found" }, db)
    -- Only the recipient can deny
    else if existing.requested_by == agent then
      ({ ok := false, status := some 400, error := some "Cannot deny your own request" }, db)
    else
      -- Remove the pending request entirely (allows re-request)
      ({ ok := true, status := none, error := none },
       { db with contacts := db.contacts.filter (fun r => !keyMatch p.1 p.2 r) })

/-- `removeContact` from contacts.ts. -/
def removeContact (db : Db) (agent otherAgent : String) : ContactResult × Db :=
  let p := orderPair agent otherAgent
  match findPair db p.1 p.2 with
  | none =>
    ({ ok := false, status := some 404, error := some "Contact not found" }, db)
  | some existing =>
    if existing.status != "active" then
      ({ ok := false, status := some 404, error := some "Contact not found" }, db)
    else
      -- Delete the contact row (allows re-request later)
      ({ ok := true, status := none, error := none },
       { db with contacts := db.contacts.filter (fun r => !keyMatch p.1 p.2 r) })

/-! ### listContacts -/

/-- A JavaScript value as it appears in a JSON response object:
    a string or `null` (the only shapes `ContactInfo` fields take). -/
inductive JsVal where
  | str : String → JsVal
  | null : JsVal
  deriving DecidableEq, Repr

/-- `ContactInfo` from contacts.ts. -/
structure ContactInfo where
  agent : String
  publicKey : String
  endpoint : Option String
  since : String
  deriving DecidableEq, Repr

/-- The JSON object a `ContactInfo` serializes to — the object literal
    built at the end of `listContacts` (keys in source order). -/
def ContactInfo.toObj (ci : ContactInfo) : List (String × JsVal) :=
  [("agent", .str ci.agent), ("publicKey", .str ci.publicKey),
   ("endpoint", match ci.endpoint with | some e => .str e | none => .null),
   ("since", .str ci.since)]

/-- One row of the SELECT in `listContacts` (the columns it projects). -/
structure JoinRow where
  agent_name : String
  public_key : String
  endpoint : Option String
  updated_at : String
  deriving DecidableEq, Repr

/-- The JOIN ... ON condition of the `listContacts` query. -/
def joinOn (agent : String) (c : ContactRow) (a : AgentRow) : Bool :=
  (c.agent_a == agent && a.name == c.agent_b) ||
  (c.agent_b == agent && a.name == c.agent_a)

/-- The WHERE clause of the `listContacts` query. -/
def listWhere (agent : String) (c : ContactRow) : Bool :=
  c.status == "active" && (c.agent_a == agent || c.agent_b == agent)

/-- FROM contacts JOIN agents ON ... WHERE ... of `listContacts`,
    before ordering. -/
def contactsJoin (db : Db) (agent : String) : List JoinRow :=
  db.contacts.flatMap (fun c =>
    db.agents.filterMap (fun a =>
      if joinOn agent c a && listWhere agent c then
        some ⟨a.name, a.public_key, a.endpoint, c.updated_at⟩
      else none))

/-- Insert a row into a list sorted by `agent_name` (for ORDER BY a.name). -/
def insertByName (x : JoinRow) : List JoinRow → List JoinRow
  | [] => [x]
  | y :: ys =>
    if strLeB x.agent_name y.agent_name then x :: y :: ys else y :: insertByName x ys

/-- ORDER BY a.name. -/
def sortByName : List JoinRow → List JoinRow
  | [] => []
  | x :: xs => insertByName x (sortByName xs)

/-- `listContacts` from contacts.ts. -/
def listContacts (db : Db) (agent : String) : List ContactInfo :=
  (sortByName (contactsJoin db agent)).map (fun r =>
    { agent := r.agent_name, publicKey := r.public_key,
      endpoint := r.endpoint, since := r.updated_at })

/-! ## Admin broadcast logic -/

/-- `BroadcastResult` from the admin module. -/
structure BroadcastResult where
  ok : Bool
  status : Option Nat
  error : Option String
  broadcastId : Option String
  deriving DecidableEq, Repr

/-- `VALID_BROADCAST_TYPES` from the admin module. -/
def VALID_BROADCAST_TYPES : List String :=
  ["security-alert", "maintenance", "update", "announcement", "revocation"]

/-- The node:crypto primitives the admin module calls, abstracted:
    `createPublicKey` (which throws on base64 that is not valid SPKI DER,
    modelled as `Except`) and Ed25519 `verify` (which may also throw).
    `K` is the type of parsed key objects. -/
structure CryptoPrimitives (K : Type) where
  createPublicKey : String → Except String K
  verify : String → K → String → Except String Bool

/-- `verifyBroadcastSignature` from the admin module: parse the key,
    verify the signature over the raw payload bytes; the surrounding
    try/catch turns any thrown error into `false`. -/
def verifyBroadcastSignature {K : Type} (cp : CryptoPrimitives K)
    (payload signatureBase64 publicKeyBase64 : String) : Bool :=
  match cp.createPublicKey publicKeyBase64 with
  | .error _ => false
  | .ok keyObj =>
    match cp.verify payload keyObj signatureBase64 with
    | .error _ => false
    | .ok b => b

/-- `createBroadcast` from the admin module.  `newId` stands for the
    `randomUUID()` value generated during the call. -/
def createBroadcast {K : Type} (cp : CryptoPrimitives K) (db : Db)
    (adminAgent type payload signature : String) (newId : String) :
    BroadcastResult × Db :=
  -- Validate type
  if !(VALID_BROADCAST_TYPES.contains type) then
    ({ ok := false, status := some 400, error := some "Invalid broadcast type", broadcastId := none }, db)
  else
    -- Verify the caller is an admin
    match db.admins.find? (fun r => r.agent == adminAgent) with
    | none =>
      ({ ok := false, status := some 403, error := some "Not an admin", broadcastId := none }, db)
    | some admin =>
      -- Verify the signature against the admin's public key
      if !verifyBroadcastSignature cp payload signature admin.admin_public_key then
        ({ ok := false, status := some 400, error := some "Invalid broadcast signature", broadcastId := none }, db)
      else
        ({ ok := true, status := none, error := none, broadcastId := some newId },
         { db with broadcasts := db.broadcasts ++
             [{ id := newId, type := type, payload := payload,
                sender := adminAgent, signature := signature }] })

/-! ## SDK relay client (relay-api) -/

/-- `buildSigningString` from relay-api: `<METHOD> <PATH>\n<TIMESTAMP>\n<BODY_SHA256>`. -/
def buildSigningString (method path timestamp bodyHash : String) : String :=
  method ++ " " ++ path ++ "\n" ++ timestamp ++ "\n" ++ bodyHash

/-- One hex digit, lowercase (node's `digest('hex')` alphabet). -/
def hexDigitChar (n : Nat) : Char :=
  if n < 10 then Char.ofNat (48 + n) else Char.ofNat (87 + n)

/-- Lowercase hex encoding of a byte list, two digits per byte. -/
def bytesToHex (bs : List Nat) : String :=
  String.mk (bs.flatMap (fun b => [hexDigitChar (b / 16 % 16), hexDigitChar (b % 16)]))

/-- `hashBody` from relay-api: `createHash('sha256').update(body).digest('hex')`.
    The SHA-256 compression itself is the abstract `sha256` (byte output);
    the hex rendering is concrete. -/
def hashBody (sha256 : String → List Nat) (body : String) : String :=
  bytesToHex (sha256 body)

/-- The outgoing HTTP request assembled by `HttpRelayAPI.request`
    (everything up to the `fetch` call). -/
structure SignedRequest where
  method : String
  path : String
  url : String
  headers : List (String × String)
  body : String
  deriving DecidableEq, Repr

/-- The request-assembly phase of `HttpRelayAPI.request`.  `sha256` is the
    abstract hash primitive; `sign` is `cryptoSign` followed by base64
    (`Buffer.from(sig).toString('base64')`); `body` is `undefined` or the
    JSON-serialized request body (`JSON.stringify(body)`). -/
def buildRequest (sha256 : String → List Nat) (sign : String → String)
    (relayUrl username method path timestamp : String) (body : Option String) :
    SignedRequest :=
  let bodyStr := body.getD ""
  let bodyHash := hashBody sha256 bodyStr
  let signingString := buildSigningString method path timestamp bodyHash
  let sig := sign signingString
  let authHeader := "Signature " ++ username ++ ":" ++ sig
  { method := method, path := path, url := relayUrl ++ path,
    headers := [("Authorization", authHeader), ("X-Timestamp", timestamp)] ++
      (if bodyStr != "" then [("Content-Type", "application/json")] else []),
    body := bodyStr }

/-! ## SDK send guard -/

/-- `CachedContact` from the SDK cache module. -/
structure CachedContact where
  username : String
  publicKey : String
  endpoint : Option String
  addedAt : String
  deriving DecidableEq, Repr

/-- `SendResult` from the SDK types. -/
structure SendResult where
  status : String
  messageId : String
  error : Option String
  deriving DecidableEq, Repr

/-- Modelled from the spec: the real `CC4MeNetwork.send` pipeline is
    implemented outside the provided sources (the client.ts stub points at
    module "s-p10b").  Per the spec's send pipeline, the recipient is looked
    up in the local contact cache and "If the recipient is not a known
    contact, return {status:"failed", error:"not a contact"}"; otherwise the
    message pipeline proceeds (encrypt, deliver or enqueue), abstracted here
    as `pipeline`. -/
def sendModel (pipeline : CachedContact → SendResult)
    (cacheContacts : List CachedContact) (recipient : String) : SendResult :=
  match cacheContacts.find? (fun c => c.username == recipient) with
  | none => { status := "failed", messageId := "", error := some "not a contact" }
  | some c => pipeline c

/-! ## Contact-table invariant and operation sequences -/

/-- The contacts-table invariant: every row is strictly ordered
    (`agent_a < agent_b` lexicographically) and no two rows share an
    ordered key — hence at most one row per unordered pair and no
    reverse-ordered duplicate. -/
def ContactsInv (c : List ContactRow) : Prop :=
  (∀ r ∈ c, r.agent_a < r.agent_b) ∧
  (c.map (fun r => (r.agent_a, r.agent_b))).Nodup

/-- One call to a contact-mutating route. -/
inductive ContactOp where
  | request : String → String → Option String → String → ContactOp
  | accept : String → String → String → ContactOp
  | deny : String → String → ContactOp
  | remove : String → String → ContactOp
  deriving DecidableEq, Repr

/-- The database after one route call (responses discarded). -/
def applyOp (db : Db) : ContactOp → Db
  | .request f t g now => (requestContact db f t g now).2
  | .accept a o now => (acceptContact db a o now).2
  | .deny a o => (denyContact db a o).2
  | .remove a o => (removeContact db a o).2

/-- The database after a sequence of route calls. -/
def applyOps (db : Db) (ops : List ContactOp) : Db :=
  ops.foldl applyOp db

/-- The row `requestContact` inserts on success. -/
def newPendingRow (f t : String) (g : Option String) (now : String) : ContactRow :=
  { agent_a := (orderPair f t).1, agent_b := (orderPair f t).2,
    status := "pending", requested_by := f,
    greeting := greetingOrNull g, created_at := now, updated_at := now }

/-! ## Concrete instances (used in closed checks) -/

/-- A database with two active agents and no contacts. -/
def dbTwoAgents : Db :=
  { agents := [{ name := "alice", public_key := "PKA",
                 endpoint := some "https://alice.example.com/inbox", status := "active" },
               { name := "bob", public_key := "PKB",
                 endpoint := none, status := "active" }],
    contacts := [], admins := [], broadcasts := [] }

/-- A database holding a pending alice→bob request while neither agent
    has an `agents` row (e.g. both were revoked after the request). -/
def dbPendingNoAgents : Db :=
  { agents := [],
    contacts := [{ agent_a := "alice", agent_b := "bob", status := "pending",
                   requested_by := "alice", greeting := none,
                   created_at := "t0", updated_at := "t0" }],
    admins := [], broadcasts := [] }

/-- Two active agents plus a pending alice→bob request. -/
def dbPendingTwoAgents : Db :=
  { agents := [{ name := "alice", public_key := "PKA",
                 endpoint := some "https://alice.example.com/inbox", status := "active" },
               { name := "bob", public_key := "PKB",
                 endpoint := none, status := "active" }],
    contacts := [{ agent_a := "alice", agent_b := "bob", status := "pending",
                   requested_by := "alice", greeting := none,
                   created_at := "t0", updated_at := "t0" }],
    admins := [], broadcasts := [] }

/-- A database with one active pair alice–bob and bob's agents row. -/
def dbListDemo : Db :=
  { agents := [{ name := "bob", public_key := "PKB",
                 endpoint := some "https://bob.example.com/inbox", status := "active" }],
    contacts := [{ agent_a := "alice", agent_b := "bob", status := "active",
                   requested_by := "alice", greeting := none,
                   created_at := "t0", updated_at := "t1" }],
    admins := [], broadcasts := [] }

/-- A database holding a single already-`active` pair requested by alice. -/
def dbActivePair : Db :=
  { agents := [],
    contacts := [{ agent_a := "alice", agent_b := "bob", status := "active",
                   requested_by := "alice", greeting := none,
                   created_at := "t0", updated_at := "t0" }],
    admins := [], broadcasts := [] }

/-- Crypto primitives whose key parsing always throws (any base64 blob that
    is not valid SPKI DER behaves this way). -/
def rejectingCrypto : CryptoPrimitives Unit :=
  { createPublicKey := fun _ => .error "Invalid key",
    verify := fun _ _ _ => .ok true }

/-- A database holding a single pending pair requested by alice. -/
def dbPendingPair : Db :=
  { agents := [],
    contacts := [{ agent_a := "alice", agent_b := "bob", status := "pending",
                   requested_by := "alice", greeting := none,
                   created_at := "t0", updated_at := "t0" }],
    admins := [], broadcasts := [] }

/-- Crypto primitives that accept everything (stands in for a correctly
    signed payload under the admin's stored key). -/
def acceptingCrypto : CryptoPrimitives Unit :=
  { createPublicKey := fun _ => .ok (),
    verify := fun _ _ _ => .ok true }

/-- A database with one registered admin and no broadcasts. -/
def dbOneAdmin : Db :=
  { agents := [], contacts := [],
    admins := [{ agent := "bmo", admin_public_key := "ADMINPK" }],
    broadcasts := [] }

/-! ## Helper lemmas -/

/-- `strLtB` agrees with `String`'s strict order. -/
lemma strLtB_iff {a b : String} : strLtB a b = true ↔ a < b := by
  simp only [strLtB, decide_eq_true_eq]
  exact (String.lt_iff_toList_lt).symm

/-- Ordering two distinct names yields a strictly increasing pair. -/
lemma orderPair_lt {a b : String} (h : a ≠ b) :
    (orderPair a b).1 < (orderPair a b).2 := by
  unfold orderPair
  rcases lt_trichotomy a b with hlt | heq | hgt
  · simp [strLtB_iff.mpr hlt, hlt]
  · exact absurd heq h
  · have : strLtB a b = false := by
      rw [Bool.eq_false_iff, Ne, strLtB_iff]
      exact not_lt_of_gt hgt
    simp [this, hgt]

/-- `keyMatch` as a proposition on the two key columns. -/
lemma keyMatch_iff {a b : String} {r : ContactRow} :
    keyMatch a b r = true ↔ (r.agent_a = a ∧ r.agent_b = b) := by
  simp [keyMatch]

/-- The contacts invariant restricts to sublists of the table. -/
lemma contactsInv_sublist {l l' : List ContactRow} (hs : l'.Sublist l)
    (h : ContactsInv l) : ContactsInv l' :=
  ⟨fun r hr => h.1 r (hs.subset hr), h.2.sublist (hs.map _)⟩

/-- The database after `requestContact`: either untouched, or (for distinct
    agents) the rows for the ordered key are dropped and one fresh pending
    row is appended. -/
lemma requestContact_db_cases (db : Db) (f t : String) (g : Option String)
    (now : String) :
    (requestContact db f t g now).2 = db ∨
    (f ≠ t ∧ ∃ l : List ContactRow,
      (requestContact db f t g now).2.contacts = l ++ [newPendingRow f t g now] ∧
      l.Sublist db.contacts ∧
      ∀ r ∈ l, keyMatch (orderPair f t).1 (orderPair f t).2 r = false) := by
  simp only [requestContact]
  split
  next h1 => exact Or.inl rfl
  next h1 =>
    have hne : f ≠ t := by
      intro heq
      exact h1 (by simp [heq])
    split
    next => exact Or.inl rfl
    next =>
      split
      next => exact Or.inl rfl
      next =>
        split
        next => exact Or.inl rfl
        next =>
          split
          next existing hfind =>
            split
            next => exact Or.inl rfl
            next =>
              split
              next => exact Or.inl rfl
              next =>
                refine Or.inr ⟨hne, db.contacts.filter
                  (fun r => !keyMatch (orderPair f t).1 (orderPair f t).2 r),
                  rfl, List.filter_sublist _, ?_⟩
                intro r hr
                have := (List.mem_filter.mp hr).2
                simpa using this
          next hfind =>
            refine Or.inr ⟨hne, db.contacts, rfl, List.Sublist.refl _, ?_⟩
            intro r hr
            have := List.find?_eq_none.mp hfind r hr
            simpa using this

/-- The database after `acceptContact`: either untouched, or the rows for
    the ordered key are flipped to `active` in place. -/
lemma acceptContact_db_cases (db : Db) (a o now : String) :
    (acceptContact db a o now).2 = db ∨
    (acceptContact db a o now).2.contacts = db.contacts.map (fun r =>
      if keyMatch (orderPair a o).1 (orderPair a o).2 r then
        { r with status := "active", updated_at := now } else r) := by
  simp only [acceptContact]
  split
  next => exact Or.inl rfl
  next existing hfind =>
    split
    next => exact Or.inl rfl
    next =>
      split
      next => exact Or.inl rfl
      next =>
        split
        next => exact Or.inl rfl
        next => exact Or.inr rfl

/-- The database after `denyContact`: untouched, or the key's rows deleted. -/
lemma denyContact_db_cases (db : Db) (a o : String) :
    (denyContact db a o).2 = db ∨
    (denyContact db a o).2.contacts = db.contacts.filter
      (fun r => !keyMatch (orderPair a o).1 (orderPair a o).2 r) := by
  simp only [denyContact]
  split
  next => exact Or.inl rfl
  next existing hfind =>
    split
    next => exact Or.inl rfl
    next =>
      split
      next => exact Or.inl rfl
      next => exact Or.inr rfl

/-- The database after `removeContact`: untouched, or the key's rows deleted. -/
lemma removeContact_db_cases (db : Db) (a o : String) :
    (removeContact db a o).2 = db ∨
    (removeContact db a o).2.contacts = db.contacts.filter
      (fun r => !keyMatch (orderPair a o).1 (orderPair a o).2 r) := by
  simp only [removeContact]
  split
  next => exact Or.inl rfl
  next existing hfind =>
    split
    next => exact Or.inl rfl
    next => exact Or.inr rfl

/-- The `accept` row update leaves both key columns unchanged. -/
lemma acceptUpdate_keys (x y now : String) (r : ContactRow) :
    ((if keyMatch x y r then { r with status := "active", updated_at := now }
      else r).agent_a,
     (if keyMatch x y r then { r with status := "active", updated_at := now }
      else r).agent_b) = (r.agent_a, r.agent_b) := by
  split <;> rfl

/-- `requestContact` preserves the contacts invariant. -/
lemma contactsInv_request (db : Db) (f t : String) (g : Option String)
    (now : String) (h : ContactsInv db.contacts) :
    ContactsInv (requestContact db f t g now).2.contacts := by
  rcases requestContact_db_cases db f t g now with heq | ⟨hne, l, heq, hsub, hkey⟩
  · rw [heq]; exact h
  · rw [heq]
    refine ⟨?_, ?_⟩
    · intro r hr
      rcases List.mem_append.mp hr with hr | hr
      · exact h.1 r (hsub.subset hr)
      · have hr' : r = newPendingRow f t g now := by simpa using hr
        rw [hr']
        exact orderPair_lt hne
    · rw [List.map_append]
      refine List.Nodup.append (h.2.sublist (hsub.map _)) (by simp) ?_
      intro x hx hx'
      obtain ⟨r, hr, rfl⟩ := List.mem_map.mp hx
      have hx'' : r.agent_a = (orderPair f t).1 ∧ r.agent_b = (orderPair f t).2 := by
        have : (r.agent_a, r.agent_b) =
            ((orderPair f t).1, (orderPair f t).2) := by
          simpa [newPendingRow] using hx'
        exact ⟨congrArg Prod.fst this, congrArg Prod.snd this⟩
      have hfalse := hkey r hr
      rw [Bool.eq_false_iff] at hfalse
      exact hfalse (keyMatch_iff.mpr hx'')

/-- `acceptContact` preserves the contacts invariant. -/
lemma contactsInv_accept (db : Db) (a o now : String)
    (h : ContactsInv db.contacts) :
    ContactsInv (acceptContact db a o now).2.contacts := by
  rcases acceptContact_db_cases db a o now with heq | heq
  · rw [heq]; exact h
  · rw [heq]
    refine ⟨?_, ?_⟩
    · intro r hr
      obtain ⟨r0, hr0, rfl⟩ := List.mem_map.mp hr
      have hk := acceptUpdate_keys (orderPair a o).1 (orderPair a o).2 now r0
      rw [Prod.mk.injEq] at hk
      rw [hk.1, hk.2]
      exact h.1 r0 hr0
    · rw [List.map_map]
      have hfun : ((fun r : ContactRow => (r.agent_a, r.agent_b)) ∘
          (fun r => if keyMatch (orderPair a o).1 (orderPair a o).2 r then
            { r with status := "active", updated_at := now } else r)) =
          fun r : ContactRow => (r.agent_a, r.agent_b) :=
        funext (fun r => acceptUpdate_keys _ _ _ r)
      rw [hfun]
      exact h.2

/-- `denyContact` preserves the contacts invariant. -/
lemma contactsInv_deny (db : Db) (a o : String) (h : ContactsInv db.contacts) :
    ContactsInv (denyContact db a o).2.contacts := by
  rcases denyContact_db_cases db a o with heq | heq
  · rw [heq]; exact h
  · rw [heq]
    exact contactsInv_sublist (List.filter_sublist _) h

/-- `removeContact` preserves the contacts invariant. -/
lemma contactsInv_remove (db : Db) (a o : String) (h : ContactsInv db.contacts) :
    ContactsInv (removeContact db a o).2.contacts := by
  rcases removeContact_db_cases db a o with heq | heq
  · rw [heq]; exact h
  · rw [heq]
    exact contactsInv_sublist (List.filter_sublist _) h

/-- Every single route call preserves the contacts invariant. -/
lemma contactsInv_applyOp (db : Db) (op : ContactOp)
    (h : ContactsInv db.contacts) : ContactsInv (applyOp db op).contacts := by
  cases op with
  | request f t g now => exact contactsInv_request db f t g now h
  | accept a o now => exact contactsInv_accept db a o now h
  | deny a o => exact contactsInv_deny db a o h
  | remove a o => exact contactsInv_remove db a o h

/-- Every sequence of route calls preserves the contacts invariant. -/
lemma contactsInv_applyOps (ops : List ContactOp) :
    ∀ db : Db, ContactsInv db.contacts → ContactsInv (applyOps db ops).contacts := by
  induction ops with
  | nil => intro db h; exact h
  | cons op rest ih =>
    intro db h
    exact ih (applyOp db op) (contactsInv_applyOp db op h)

/-- A successful `denyContact` deletes exactly the rows of the ordered key
    and touches nothing else. -/
lemma denyContact_ok_shape (db : Db) (a o : String)
    (hok : (denyContact db a o).1.ok = true) :
    (denyContact db a o).2 =
      { db with contacts := db.contacts.filter (fun r => !keyMatch (orderPair a o).1 (orderPair a o).2 r) } := by
  simp only [denyContact] at hok ⊢
  split at hok
  · simp at hok
  · split at hok
    · simp at hok
    · split at hok
      · simp at hok
      · simp_all

/-- A successful `removeContact` deletes exactly the rows of the ordered
    key and touches nothing else. -/
lemma removeContact_ok_shape (db : Db) (a o : String)
    (hok : (removeContact db a o).1.ok = true) :
    (removeContact db a o).2 =
      { db with contacts := db.contacts.filter (fun r => !keyMatch (orderPair a o).1 (orderPair a o).2 r) } := by
  simp only [removeContact] at hok ⊢
  split at hok
  · simp at hok
  · split at hok
    · simp at hok
    · simp_all

/-- `requestContact` succeeds with 201 when the parties are distinct and
    active, the greeting fits, and no row for the ordered key exists. -/
lemma requestContact_success (db : Db) (f t : String) (g : Option String)
    (now : String) (hne : f ≠ t)
    (hf : isActiveAgent db f = true) (ht : isActiveAgent db t = true)
    (hg : ∀ s, g = some s → s.length ≤ MAX_GREETING_LENGTH)
    (hfind : findPair db (orderPair f t).1 (orderPair f t).2 = none) :
    requestContact db f t g now =
      ({ ok := true, status := some 201, error := none },
       { db with contacts := db.contacts ++ [newPendingRow f t g now] }) := by
  have hbeq : (f == t) = false := by simp [hne]
  have hgg : (greetingTruthy g &&
      decide ((g.getD "").length > MAX_GREETING_LENGTH)) = false := by
    cases g with
    | none => rfl
    | some s =>
      have hle := hg s rfl
      simp [Nat.not_lt.mpr hle]
  simp only [requestContact, hbeq, hf, ht, hgg, hfind, Bool.not_true,
    Bool.false_and, if_false, Bool.false_eq_true, ite_false]
  simp [newPendingRow]

/-- Under the composite primary key (no two rows share the ordered key),
    a row with the key is what the keyed SELECT returns. -/
lemma findPair_of_mem (db : Db) (a b : String)
    (hPK : (db.contacts.map (fun r => (r.agent_a, r.agent_b))).Nodup)
    (r : ContactRow) (hr : r ∈ db.contacts)
    (ha : r.agent_a = a) (hb : r.agent_b = b) :
    findPair db a b = some r := by
  unfold findPair
  cases hfind : db.contacts.find? (keyMatch a b) with
  | none =>
    exfalso
    exact (List.find?_eq_none.mp hfind r hr) (keyMatch_iff.mpr ⟨ha, hb⟩)
  | some r' =>
    have hmem : r' ∈ db.contacts := List.mem_of_find?_eq_some hfind
    have hkey := keyMatch_iff.mp (List.find?_some hfind)
    have : r' = r := List.inj_on_of_nodup_map hPK hmem hr
      (by rw [hkey.1, hkey.2, ha, hb])
    rw [this]

/-- Insertion keeps exactly the members. -/
lemma mem_insertByName {x y : JoinRow} {l : List JoinRow} :
    y ∈ insertByName x l ↔ y = x ∨ y ∈ l := by
  induction l with
  | nil => simp [insertByName]
  | cons z zs ih =>
    simp only [insertByName]
    split
    · simp [List.mem_cons]
    · rw [List.mem_cons, ih, List.mem_cons]
      tauto

/-- ORDER BY keeps exactly the members. -/
lemma mem_sortByName {y : JoinRow} {l : List JoinRow} :
    y ∈ sortByName l ↔ y ∈ l := by
  induction l with
  | nil => simp [sortByName]
  | cons z zs ih => simp [sortByName, mem_insertByName, ih]

/-- Every character of a `bytesToHex` rendering is a lowercase hex digit. -/
lemma bytesToHex_chars {bs : List Nat} {c : Char} (hc : c ∈ (bytesToHex bs).data) :
    c ∈ "0123456789abcdef".data := by
  induction bs with
  | nil => simp [bytesToHex] at hc
  | cons b rest ih =>
    simp only [bytesToHex, List.flatMap_cons, String.data] at hc ih
    rcases List.mem_append.mp hc with h | h
    · have hmem : c = hexDigitChar (b / 16 % 16) ∨ c = hexDigitChar (b % 16) := by
        simpa using h
      have h16a : b / 16 % 16 < 16 := Nat.mod_lt _ (by norm_num)
      have h16b : b % 16 < 16 := Nat.mod_lt _ (by norm_num)
      rcases hmem with rfl | rfl
      · revert h16a; generalize b / 16 % 16 = n; intro hn
        interval_cases n <;> decide
      · revert h16b; generalize b % 16 = n; intro hn
        interval_cases n <;> decide
    · exact ih h

/-! ## Theorems -/

/-- C7: every relay API call assembled by the HTTP relay client carries an
    `Authorization` header of the exact form `Signature <agent>:<base64-sig>`
    and an `X-Timestamp` header, and the Ed25519 signature is computed over
    `"{METHOD} {PATH}"`, a newline, the ISO timestamp, a newline, and the
    lowercase SHA-256 hex digest of the (possibly empty) body. -/
theorem buildRequest_signing_spec (sha256 : String → List Nat) (sign : String → String)
    (relayUrl username method path timestamp : String) (body : Option String) :
    (buildRequest sha256 sign relayUrl username method path timestamp body).headers.lookup
        "Authorization" =
      some ("Signature " ++ username ++ ":" ++
        sign (method ++ " " ++ path ++ "\n" ++ timestamp ++ "\n" ++
          bytesToHex (sha256 (body.getD "")))) ∧
    (buildRequest sha256 sign relayUrl username method path timestamp body).headers.lookup
        "X-Timestamp" = some timestamp ∧
    ∀ c ∈ (bytesToHex (sha256 (body.getD ""))).data, c ∈ "0123456789abcdef".data := by
  refine ⟨rfl, rfl, ?_⟩
  intro c hc
  exact bytesToHex_chars hc

/-- C7 witness: with identity signing and a two-byte digest, the assembled
    GET /contacts request carries the documented Authorization header, and
    a digest character is drawn from the lowercase hex alphabet. -/
theorem buildRequest_signing_spec_check :
    (buildRequest (fun _ => [171, 0]) (fun s => s) "https://relay.example.com"
        "alice" "GET" "/contacts" "2026-02-03T04:05:06Z" none).headers.lookup
      "Authorization" =
      some ("Signature " ++ "alice" ++ ":" ++
        ("GET" ++ " " ++ "/contacts" ++ "\n" ++ "2026-02-03T04:05:06Z" ++ "\n" ++
          bytesToHex [171, 0])) ∧
    'a' ∈ "0123456789abcdef".data := by
  refine ⟨(buildRequest_signing_spec (fun _ => [171, 0]) (fun s => s)
    "https://relay.example.com" "alice" "GET" "/contacts"
    "2026-02-03T04:05:06Z" none).1, ?_⟩
  exact (buildRequest_signing_spec (fun _ => [171, 0]) (fun s => s)
    "https://relay.example.com" "alice" "GET" "/contacts"
    "2026-02-03T04:05:06Z" none).2.2 'a' (by decide)

/-- C8: when the recipient is not a known contact in the local cache, `send`
    returns `{status:"failed", error:"not a contact"}` (modelled from the
    spec; the pipeline past the contact check is abstract). -/
theorem send_not_a_contact (pipeline : CachedContact → SendResult)
    (cacheContacts : List CachedContact) (recipient : String)
    (h : cacheContacts.find? (fun c => c.username == recipient) = none) :
    sendModel pipeline cacheContacts recipient =
      { status := "failed", messageId := "", error := some "not a contact" } := by
  unfold sendModel
  rw [h]

/-- C8 witness: an empty cache knows no contact, so `send` fails with
    "not a contact". -/
theorem send_not_a_contact_check :
    sendModel (fun _ => { status := "delivered", messageId := "m", error := none })
        [] "bob" =
      { status := "failed", messageId := "", error := some "not a contact" } :=
  send_not_a_contact _ [] "bob" rfl

/-- C9: when the contacts row for the unordered pair is already `active`,
    `acceptContact` by either party (the requester included) returns
    `{ok:true}` and leaves the database unchanged. -/
theorem acceptContact_idempotent_active (db : Db) (agent otherAgent now : String)
    (r : ContactRow)
    (hfind : findPair db (orderPair agent otherAgent).1 (orderPair agent otherAgent).2 =
      some r)
    (hactive : r.status = "active") :
    acceptContact db agent otherAgent now =
      ({ ok := true, status := none, error := none }, db) := by
  unfold acceptContact
  simp only [hfind, hactive]
  simp

/-- C9 witness: accepting an already-active pair — here by the requester
    alice — returns ok and changes nothing. -/
theorem acceptContact_idempotent_active_check :
    acceptContact dbActivePair "alice" "bob" "t1" =
      ({ ok := true, status := none, error := none }, dbActivePair) :=
  acceptContact_idempotent_active dbActivePair "alice" "bob" "t1"
    { agent_a := "alice", agent_b := "bob", status := "active",
      requested_by := "alice", greeting := none,
      created_at := "t0", updated_at := "t0" }
    (by decide) rfl

/-- C10: `verifyBroadcastSignature` is total — for every behaviour of the
    underlying node:crypto primitives it returns a boolean rather than
    propagating an exception: a key that fails to parse yields `false`, a
    verification that throws yields `false`, and a verification that
    returns `b` yields `b`. -/
theorem verifyBroadcastSignature_total {K : Type} (cp : CryptoPrimitives K)
    (payload sigB64 pkB64 : String) :
    (∀ e, cp.createPublicKey pkB64 = .error e →
      verifyBroadcastSignature cp payload sigB64 pkB64 = false) ∧
    (∀ keyObj e, cp.createPublicKey pkB64 = .ok keyObj →
      cp.verify payload keyObj sigB64 = .error e →
      verifyBroadcastSignature cp payload sigB64 pkB64 = false) ∧
    (∀ keyObj b, cp.createPublicKey pkB64 = .ok keyObj →
      cp.verify payload keyObj sigB64 = .ok b →
      verifyBroadcastSignature cp payload sigB64 pkB64 = b) := by
  refine ⟨?_, ?_, ?_⟩
  · intro e he
    simp [verifyBroadcastSignature, he]
  · intro keyObj e hk hv
    simp [verifyBroadcastSignature, hk, hv]
  · intro keyObj b hk hv
    simp [verifyBroadcastSignature, hk, hv]

/-- C10 witness: with a key that fails to parse, verification yields
    `false` instead of an exception. -/
theorem verifyBroadcastSignature_total_check :
    verifyBroadcastSignature rejectingCrypto "payload" "sig" "notakey" = false :=
  (verifyBroadcastSignature_total rejectingCrypto "payload" "sig" "notakey").1
    "Invalid key" rfl

/-- C2 counterexample: on a row that is already `active`, `acceptContact`
    called by the recorded requester (alice) returns `{ok:true}` — not
    status 400 as the claim demands for every row. -/
theorem acceptContact_active_requester_not_400 :
    (acceptContact dbActivePair "alice" "bob" "t1").1.ok = true ∧
    (acceptContact dbActivePair "alice" "bob" "t1").1.status ≠ some 400 := by
  decide

/-- C2 (amended): on a *pending* row, accept and deny succeed only when the
    caller is not the recorded requester; a requester calling either gets
    status 400 and the database is unchanged. -/
theorem accept_deny_pending_only_nonrequester (db : Db) (u v now : String)
    (r : ContactRow)
    (hfind : findPair db (orderPair u v).1 (orderPair u v).2 = some r)
    (hp : r.status = "pending") :
    (r.requested_by = u →
      acceptContact db u v now =
        ({ ok := false, status := some 400,
           error := some "Cannot accept your own request" }, db) ∧
      denyContact db u v =
        ({ ok := false, status := some 400,
           error := some "Cannot deny your own request" }, db)) ∧
    ((acceptContact db u v now).1.ok = true → r.requested_by ≠ u) ∧
    ((denyContact db u v).1.ok = true → r.requested_by ≠ u) := by
  refine ⟨?_, ?_, ?_⟩
  · intro hreq
    constructor
    · unfold acceptContact
      simp [hfind, hp, hreq]
    · unfold denyContact
      simp [hfind, hp, hreq]
  · intro hok hreq
    unfold acceptContact at hok
    simp [hfind, hp, hreq] at hok
  · intro hok hreq
    unfold denyContact at hok
    simp [hfind, hp, hreq] at hok

/-- C2 witness: on the pending alice→bob request, alice (the requester)
    gets 400 from her own accept, and the database is untouched. -/
theorem accept_deny_pending_only_nonrequester_check :
    acceptContact dbPendingPair "alice" "bob" "t1" =
      ({ ok := false, status := some 400,
         error := some "Cannot accept your own request" }, dbPendingPair) :=
  ((accept_deny_pending_only_nonrequester dbPendingPair "alice" "bob" "t1"
    { agent_a := "alice", agent_b := "bob", status := "pending",
      requested_by := "alice", greeting := none,
      created_at := "t0", updated_at := "t0" }
    (by decide) rfl).1 rfl).1

/-- C6: `createBroadcast` rejects an invalid type with 400, a non-admin
    caller with 403, and a bad signature with 400, leaving the database
    unchanged in each case; otherwise it appends exactly one broadcasts
    row storing type, payload, sender and signature unchanged under the
    freshly generated id and returns `{ok:true, broadcastId}`. -/
theorem createBroadcast_spec {K : Type} (cp : CryptoPrimitives K) (db : Db)
    (adminAgent ty payload signature newId : String) :
    (VALID_BROADCAST_TYPES.contains ty = false →
      createBroadcast cp db adminAgent ty payload signature newId =
        ({ ok := false, status := some 400, error := some "Invalid broadcast type",
           broadcastId := none }, db)) ∧
    (VALID_BROADCAST_TYPES.contains ty = true →
      db.admins.find? (fun r => r.agent == adminAgent) = none →
      createBroadcast cp db adminAgent ty payload signature newId =
        ({ ok := false, status := some 403, error := some "Not an admin",
           broadcastId := none }, db)) ∧
    (∀ admin, VALID_BROADCAST_TYPES.contains ty = true →
      db.admins.find? (fun r => r.agent == adminAgent) = some admin →
      verifyBroadcastSignature cp payload signature admin.admin_public_key = false →
      createBroadcast cp db adminAgent ty payload signature newId =
        ({ ok := false, status := some 400, error := some "Invalid broadcast signature",
           broadcastId := none }, db)) ∧
    (∀ admin, VALID_BROADCAST_TYPES.contains ty = true →
      db.admins.find? (fun r => r.agent == adminAgent) = some admin →
      verifyBroadcastSignature cp payload signature admin.admin_public_key = true →
      createBroadcast cp db adminAgent ty payload signature newId =
        ({ ok := true, status := none, error := none, broadcastId := some newId },
         { db with broadcasts := db.broadcasts ++
             [{ id := newId, type := ty, payload := payload,
                sender := adminAgent, signature := signature }] }) ∧
      (newId ∉ db.broadcasts.map (fun b => b.id) →
        ((createBroadcast cp db adminAgent ty payload signature newId).2.broadcasts.filter
            (fun b => b.id == newId)) =
          [{ id := newId, type := ty, payload := payload,
             sender := adminAgent, signature := signature }])) := by
  refine ⟨?_, ?_, ?_, ?_⟩
  · intro hty
    unfold createBroadcast
    simp only [hty]
    simp
  · intro hty hadmin
    unfold createBroadcast
    simp only [hty, hadmin]
    simp
  · intro admin hty hadmin hsig
    unfold createBroadcast
    simp only [hty, hadmin, hsig]
    simp
  · intro admin hty hadmin hsig
    have heq : createBroadcast cp db adminAgent ty payload signature newId =
        ({ ok := true, status := none, error := none, broadcastId := some newId },
         { db with broadcasts := db.broadcasts ++
             [{ id := newId, type := ty, payload := payload,
                sender := adminAgent, signature := signature }] }) := by
      unfold createBroadcast
      simp only [hty, hadmin, hsig]
      simp
    refine ⟨heq, ?_⟩
    intro hfresh
    rw [heq]
    simp only [List.filter_append]
    have hnil : db.broadcasts.filter (fun b => b.id == newId) = [] := by
      rw [List.filter_eq_nil_iff]
      intro b hb
      simp only [beq_iff_eq]
      intro hbid
      exact hfresh (hbid ▸ List.mem_map_of_mem (fun x => x.id) hb)
    rw [hnil]
    simp

/-- C6 witness: a valid admin broadcast of type `update` is stored
    unchanged under the fresh id and acknowledged with `{ok:true}`. -/
theorem createBroadcast_spec_check :
    createBroadcast acceptingCrypto dbOneAdmin "bmo" "update" "payload-1" "SIG" "id-1" =
      ({ ok := true, status := none, error := none, broadcastId := some "id-1" },
       { dbOneAdmin with broadcasts :=
           [{ id := "id-1", type := "update", payload := "payload-1",
              sender := "bmo", signature := "SIG" }] }) :=
  ((createBroadcast_spec acceptingCrypto dbOneAdmin "bmo" "update" "payload-1" "SIG" "id-1").2.2.2
    { agent := "bmo", admin_public_key := "ADMINPK" } rfl rfl rfl).1

/-- C3: starting from an empty contacts table, every sequence of
    `requestContact`, `acceptContact`, `denyContact` and `removeContact`
    calls leaves every contacts row with `agent_a < agent_b`
    lexicographically and at most one row per unordered pair (in
    particular no reverse-ordered duplicate). -/
theorem contacts_table_invariant (db : Db) (ops : List ContactOp)
    (h0 : db.contacts = []) : ContactsInv (applyOps db ops).contacts := by
  apply contactsInv_applyOps
  rw [h0]
  exact ⟨fun r hr => absurd hr (List.not_mem_nil r), List.nodup_nil⟩

/-- C3 witness: a request → accept → remove → re-request run from the
    empty table keeps the invariant. -/
theorem contacts_table_invariant_check :
    ContactsInv (applyOps dbTwoAgents
      [.request "alice" "bob" (some "Hi Bob!") "t0",
       .accept "bob" "alice" "t1",
       .remove "alice" "bob",
       .request "bob" "alice" none "t2"]).contacts :=
  contacts_table_invariant dbTwoAgents _ rfl

/-- C4 counterexample: with a pending pair whose agents have no `agents`
    rows, the deny succeeds but the re-request returns 403, not 201 — the
    claim's "for every database state" fails without agent-activity
    preconditions. -/
theorem deny_then_rerequest_inactive :
    (denyContact dbPendingNoAgents "bob" "alice").1.ok = true ∧
    (requestContact (denyContact dbPendingNoAgents "bob" "alice").2
      "alice" "bob" none "t1").1.status = some 403 := by
  decide

/-- C4 (amended): after a successful deny (or remove) the row for the
    unordered pair is gone, and a re-request by either party — provided
    both parties are active agents and the greeting fits — succeeds
    with 201. -/
theorem rerequest_after_deny_or_remove (db : Db) (u v x y : String)
    (g : Option String) (now : String)
    (hpair : orderPair x y = orderPair u v) (hxy : x ≠ y)
    (hax : isActiveAgent db x = true) (hay : isActiveAgent db y = true)
    (hg : ∀ s, g = some s → s.length ≤ MAX_GREETING_LENGTH) :
    ((denyContact db u v).1.ok = true →
      findPair (denyContact db u v).2 (orderPair u v).1 (orderPair u v).2 = none ∧
      (requestContact (denyContact db u v).2 x y g now).1 =
        { ok := true, status := some 201, error := none }) ∧
    ((removeContact db u v).1.ok = true →
      findPair (removeContact db u v).2 (orderPair u v).1 (orderPair u v).2 = none ∧
      (requestContact (removeContact db u v).2 x y g now).1 =
        { ok := true, status := some 201, error := none }) := by
  constructor
  · intro hok
    have hsh := denyContact_ok_shape db u v hok
    have hfnone : findPair (denyContact db u v).2
        (orderPair u v).1 (orderPair u v).2 = none := by
      rw [hsh]
      apply List.find?_eq_none.mpr
      intro r hr
      simpa using (List.mem_filter.mp hr).2
    refine ⟨hfnone, ?_⟩
    have hfind' : findPair (denyContact db u v).2
        (orderPair x y).1 (orderPair x y).2 = none := by
      rw [hpair]; exact hfnone
    have hax' : isActiveAgent (denyContact db u v).2 x = true := by
      rw [hsh]; exact hax
    have hay' : isActiveAgent (denyContact db u v).2 y = true := by
      rw [hsh]; exact hay
    rw [requestContact_success _ x y g now hxy hax' hay' hg hfind']
  · intro hok
    have hsh := removeContact_ok_shape db u v hok
    have hfnone : findPair (removeContact db u v).2
        (orderPair u v).1 (orderPair u v).2 = none := by
      rw [hsh]
      apply List.find?_eq_none.mpr
      intro r hr
      simpa using (List.mem_filter.mp hr).2
    refine ⟨hfnone, ?_⟩
    have hfind' : findPair (removeContact db u v).2
        (orderPair x y).1 (orderPair x y).2 = none := by
      rw [hpair]; exact hfnone
    have hax' : isActiveAgent (removeContact db u v).2 x = true := by
      rw [hsh]; exact hax
    have hay' : isActiveAgent (removeContact db u v).2 y = true := by
      rw [hsh]; exact hay
    rw [requestContact_success _ x y g now hxy hax' hay' hg hfind']

/-- C4 witness: bob denies the pending alice→bob request between two
    active agents; the row is gone and alice's re-request returns 201. -/
theorem rerequest_after_deny_or_remove_check :
    findPair (denyContact dbPendingTwoAgents "bob" "alice").2
      (orderPair "bob" "alice").1 (orderPair "bob" "alice").2 = none ∧
    (requestContact (denyContact dbPendingTwoAgents "bob" "alice").2
      "alice" "bob" none "t2").1 =
      { ok := true, status := some 201, error := none } :=
  (rerequest_after_deny_or_remove dbPendingTwoAgents "bob" "alice" "alice" "bob"
    none "t2" (by decide) (by decide) rfl rfl (fun s h => nomatch h)).1 (by decide)

/-- C1: `requestContact` returns 400 on a self-request; 403 when the
    requester is not active; 404 when the target is not active; 400 when
    the greeting exceeds 500 characters; 409 (database unchanged) when a
    row for the ordered pair is `active` or `pending`; and otherwise
    appends a single `pending` row keyed by the alphabetically ordered
    pair with `requested_by = from` and returns `{ok:true, status:201}`.
    `hPK` is the contacts table's composite primary key. -/
theorem requestContact_spec (db : Db) (f t : String) (g : Option String)
    (now : String)
    (hPK : (db.contacts.map (fun r => (r.agent_a, r.agent_b))).Nodup) :
    (f = t → requestContact db f t g now =
      ({ ok := false, status := some 400,
         error := some "Cannot add yourself as a contact" }, db)) ∧
    (f ≠ t → isActiveAgent db f = false →
      requestContact db f t g now =
        ({ ok := false, status := some 403,
           error := some "Requesting agent is not active" }, db)) ∧
    (f ≠ t → isActiveAgent db f = true → isActiveAgent db t = false →
      requestContact db f t g now =
        ({ ok := false, status := some 404,
           error := some "Target agent not found or not active" }, db)) ∧
    (∀ s, f ≠ t → isActiveAgent db f = true → isActiveAgent db t = true →
      g = some s → s.length > MAX_GREETING_LENGTH →
      requestContact db f t g now =
        ({ ok := false, status := some 400,
           error := some "Greeting too long (max 500 chars)" }, db)) ∧
    (f ≠ t → isActiveAgent db f = true → isActiveAgent db t = true →
      (∀ s, g = some s → s.length ≤ MAX_GREETING_LENGTH) →
      (∃ r ∈ db.contacts, r.agent_a = (orderPair f t).1 ∧
        r.agent_b = (orderPair f t).2 ∧
        (r.status = "active" ∨ r.status = "pending")) →
      (requestContact db f t g now).1.ok = false ∧
      (requestContact db f t g now).1.status = some 409 ∧
      (requestContact db f t g now).2 = db) ∧
    (f ≠ t → isActiveAgent db f = true → isActiveAgent db t = true →
      (∀ s, g = some s → s.length ≤ MAX_GREETING_LENGTH) →
      (¬ ∃ r ∈ db.contacts, r.agent_a = (orderPair f t).1 ∧
        r.agent_b = (orderPair f t).2 ∧
        (r.status = "active" ∨ r.status = "pending")) →
      (requestContact db f t g now).1 =
        { ok := true, status := some 201, error := none } ∧
      (requestContact db f t g now).2.contacts =
        db.contacts.filter
          (fun r => !keyMatch (orderPair f t).1 (orderPair f t).2 r) ++
          [newPendingRow f t g now]) := by
  refine ⟨?_, ?_, ?_, ?_, ?_, ?_⟩
  · intro heq
    subst heq
    simp [requestContact]
  · intro hne hf
    have hbeq : (f == t) = false := by simp [hne]
    simp [requestContact, hbeq, hf]
  · intro hne hf ht
    have hbeq : (f == t) = false := by simp [hne]
    simp [requestContact, hbeq, hf, ht]
  · intro s hne hf ht hgs hlen
    subst hgs
    have hs : s ≠ "" := by
      intro h
      subst h
      simp [MAX_GREETING_LENGTH] at hlen
    simp only [requestContact]
    split
    next h => exact absurd (by simpa using h) hne
    next =>
      split
      next h => rw [hf] at h; exact absurd h (by decide)
      next =>
        split
        next h => rw [ht] at h; exact absurd h (by decide)
        next =>
          split
          next => rfl
          next h =>
            exfalso
            exact h (by simp [greetingTruthy, hs, hlen])
  · intro hne hf ht hg hex
    obtain ⟨r, hr, ha, hb, hst⟩ := hex
    have hbeq : (f == t) = false := by simp [hne]
    have hguard : (greetingTruthy g &&
        decide ((g.getD "").length > MAX_GREETING_LENGTH)) = false := by
      cases g with
      | none => rfl
      | some s => simp [Nat.not_lt.mpr (hg s rfl)]
    have hfind := findPair_of_mem db _ _ hPK r hr ha hb
    rcases hst with hst | hst
    · have heq : requestContact db f t g now =
          ({ ok := false, status := some 409, error := some "Already contacts" }, db) := by
        simp only [requestContact, hbeq, hf, ht, hguard, hfind]
        simp [hst]
      exact ⟨by rw [heq], by rw [heq], by rw [heq]⟩
    · have hnact : (r.status == "active") = false := by simp [hst]
      have heq : requestContact db f t g now =
          ({ ok := false, status := some 409,
             error := some "Contact request already pending" }, db) := by
        simp only [requestContact, hbeq, hf, ht, hguard, hfind]
        simp [hst, hnact]
      exact ⟨by rw [heq], by rw [heq], by rw [heq]⟩
  · intro hne hf ht hg hnex
    have hbeq : (f == t) = false := by simp [hne]
    have hguard : (greetingTruthy g &&
        decide ((g.getD "").length > MAX_GREETING_LENGTH)) = false := by
      cases g with
      | none => rfl
      | some s => simp [Nat.not_lt.mpr (hg s rfl)]
    cases hfind : findPair db (orderPair f t).1 (orderPair f t).2 with
    | none =>
      have hsucc := requestContact_success db f t g now hne hf ht hg hfind
      have hfil : db.contacts.filter
          (fun r => !keyMatch (orderPair f t).1 (orderPair f t).2 r) = db.contacts := by
        apply List.filter_eq_self.mpr
        intro r hr
        have := List.find?_eq_none.mp hfind r hr
        simpa using this
      rw [hsucc, hfil]
      exact ⟨rfl, rfl⟩
    | some ex =>
      have hmem : ex ∈ db.contacts := List.mem_of_find?_eq_some hfind
      have hkey := keyMatch_iff.mp (List.find?_some hfind)
      have hnact : (ex.status == "active") = false := by
        simp only [beq_eq_false_iff_ne, Ne]
        intro h
        exact hnex ⟨ex, hmem, hkey.1, hkey.2, Or.inl h⟩
      have hnpend : (ex.status == "pending") = false := by
        simp only [beq_eq_false_iff_ne, Ne]
        intro h
        exact hnex ⟨ex, hmem, hkey.1, hkey.2, Or.inr h⟩
      constructor
      · simp only [requestContact, hbeq, hf, ht, hguard, hfind]
        simp [hnact, hnpend]
      · simp only [requestContact, hbeq, hf, ht, hguard, hfind]
        simp [hnact, hnpend, newPendingRow]

/-- C1 witness: between the two active agents with an empty contacts
    table, alice's request to bob succeeds with 201 and appends the
    ordered pending row. -/
theorem requestContact_spec_check :
    (requestContact dbTwoAgents "alice" "bob" (some "Hi Bob!") "t0").1 =
      { ok := true, status := some 201, error := none } ∧
    (requestContact dbTwoAgents "alice" "bob" (some "Hi Bob!") "t0").2.contacts =
      dbTwoAgents.contacts.filter
        (fun r => !keyMatch (orderPair "alice" "bob").1 (orderPair "alice" "bob").2 r) ++
        [newPendingRow "alice" "bob" (some "Hi Bob!") "t0"] :=
  (requestContact_spec dbTwoAgents "alice" "bob" (some "Hi Bob!") "t0"
    (by decide)).2.2.2.2.2 (by decide) rfl rfl
    (fun s h => by cases h; decide) (by decide)

/-- C5 counterexample: the single entry `listContacts` returns for alice
    serializes with exactly the keys agent/publicKey/endpoint/since —
    `online`, `lastSeen` and `keyUpdatedAt` are not among them. -/
theorem listContacts_missing_fields :
    (listContacts dbListDemo "alice").map (fun e => e.toObj.map Prod.fst) =
      [["agent", "publicKey", "endpoint", "since"]] ∧
    "online" ∉ ["agent", "publicKey", "endpoint", "since"] := by
  decide

/-- C5 (amended): `listContacts` returns exactly the `active` pairs the
    caller participates in, joined against the agents table, and each
    returned entry carries the fields `{agent, publicKey, endpoint,
    since}`. -/
theorem listContacts_spec (db : Db) (agent : String) (e : ContactInfo) :
    (e ∈ listContacts db agent ↔
      ∃ c ∈ db.contacts, c.status = "active" ∧
        (c.agent_a = agent ∨ c.agent_b = agent) ∧
        ∃ a ∈ db.agents,
          ((c.agent_a = agent ∧ a.name = c.agent_b) ∨
           (c.agent_b = agent ∧ a.name = c.agent_a)) ∧
          e = { agent := a.name, publicKey := a.public_key,
                endpoint := a.endpoint, since := c.updated_at }) ∧
    (e ∈ listContacts db agent →
      e.toObj.map Prod.fst = ["agent", "publicKey", "endpoint", "since"]) := by
  constructor
  · simp only [listContacts, List.mem_map, mem_sortByName, contactsJoin,
      List.mem_flatMap, List.mem_filterMap]
    constructor
    · rintro ⟨j, ⟨c, hc, a, ha, hif⟩, hje⟩
      by_cases hcond : (joinOn agent c a && listWhere agent c) = true
      · rw [if_pos hcond] at hif
        obtain ⟨hon, hwh⟩ := Bool.and_eq_true_iff.mp hcond
        obtain ⟨hst, hpart⟩ := Bool.and_eq_true_iff.mp hwh
        have hon' : (c.agent_a = agent ∧ a.name = c.agent_b) ∨
            (c.agent_b = agent ∧ a.name = c.agent_a) := by
          simpa [joinOn] using hon
        refine ⟨c, hc, by simpa using hst, by simpa using hpart,
          a, ha, hon', ?_⟩
        rw [← hje, ← Option.some.inj hif]
      · rw [if_neg hcond] at hif
        cases hif
    · rintro ⟨c, hc, hst, hpart, a, ha, hon, rfl⟩
      refine ⟨{ agent_name := a.name, public_key := a.public_key,
                endpoint := a.endpoint, updated_at := c.updated_at },
        ⟨c, hc, a, ha, ?_⟩, rfl⟩
      rw [if_pos]
      simp only [Bool.and_eq_true]
      refine ⟨by simpa [joinOn] using hon, ?_⟩
      simp [listWhere, hst, hpart]
  · intro _
    rfl

/-- C5 witness: instantiating the characterization at the demo database
    shows bob's entry is listed for alice with the four fields. -/
theorem listContacts_spec_check :
    ({ agent := "bob", publicKey := "PKB",
       endpoint := some "https://bob.example.com/inbox",
       since := "t1" } : ContactInfo) ∈ listContacts dbListDemo "alice" ∧
    ({ agent := "bob", publicKey := "PKB",
       endpoint := some "https://bob.example.com/inbox",
       since := "t1" } : ContactInfo).toObj.map Prod.fst =
      ["agent", "publicKey", "endpoint", "since"] := by
  have h := listContacts_spec dbListDemo "alice"
    { agent := "bob", publicKey := "PKB",
      endpoint := some "https://bob.example.com/inbox", since := "t1" }
  have hmem := h.1.mpr ⟨{ agent_a := "alice", agent_b := "bob",
                          status := "active", requested_by := "alice", greeting := none,
                          created_at := "t0", updated_at := "t1" }, by decide, rfl, Or.inl rfl,
    { name := "bob", public_key := "PKB",
      endpoint := some "https://bob.example.com/inbox", status := "active" },
    by decide, Or.inl ⟨rfl, rfl⟩, rfl⟩
  exact ⟨hmem, h.2 hmem⟩

end CC4Me
